import Mathlib

/-!
Verification of the JWT issuance-and-validation subsystem of the chat_application
repository (auth_service / users_manager / chat_be).

The Python sources are shallowly embedded:

* JSON claim payloads are association lists of `String × JValue` (Python dicts,
  observed through key lookup).
* The external PyJWT library is modelled abstractly: `jwt.encode` packages the
  payload together with the signing (private) key and algorithm name into a
  `SignedToken`; `jwt.decode` succeeds when the verifying public key is the one
  paired with the signing key and the algorithm is allowed, then checks the
  `exp` claim against the current time.  Signature failure (including an
  algorithm mismatch) is `JwtError.badSignature` (PyJWT `DecodeError`), a
  passed `exp` is `JwtError.expired` (PyJWT `ExpiredSignatureError`).
* Wall-clock times (`datetime`) are unix seconds as `Int`.
* Token strings on the wire are related to `SignedToken` values by an abstract
  deserialization `lib : String → Option SignedToken` (`none` meaning the string
  is not a well-formed signed token, a PyJWT `DecodeError`).
* Network calls and `sleep` are replaced by explicit outcome parameters.
-/

/-- A JSON-ish claim value as used in the repository's JWT payloads. -/
inductive JValue
  | str (s : String)
  | int (n : Int)
  | bool (b : Bool)
deriving DecidableEq, Repr

/-- A JWT claims payload: a Python dict observed through key lookup. -/
abbrev Payload := List (String × JValue)

/-- Python `d[k]` for dicts (first binding wins; well-formed dicts have unique keys). -/
def dictLookup (p : Payload) (k : String) : Option JValue :=
  match p with
  | [] => none
  | (k₁, v) :: rest => if k₁ = k then some v else dictLookup rest k

/-- Python `d[k] = v`: drop any binding of `k`, bind `k` to `v`, leave every
other key unchanged (binding order is unobservable through `dictLookup`). -/
def dictInsert (p : Payload) (k : String) (v : JValue) : Payload :=
  match p with
  | [] => [(k, v)]
  | (k₁, v₁) :: rest =>
    if k₁ = k then dictInsert rest k v
    else (k₁, v₁) :: dictInsert rest k v

/-- A signed JWT, as produced by `jwt.encode(payload, private_key, algorithm)`:
the payload together with the private key that signed it and the algorithm name. -/
structure SignedToken where
  payload : Payload
  signKey : String
  alg : String
deriving DecidableEq, Repr

/-- The asymmetric-crypto model: `pubOf k` is the public key paired with the
private key `k`.  Verification with public key `p` succeeds exactly for tokens
signed with a private key `k` such that `pubOf k = p`. -/
structure JWTCrypto where
  pubOf : String → String

/-- The two failure kinds of `jwt.decode` relevant to this repository:
`badSignature` (PyJWT `DecodeError`, raised for a wrong key, a tampered payload,
a malformed token or a disallowed algorithm) and `expired`
(PyJWT `ExpiredSignatureError`). -/
inductive JwtError
  | badSignature
  | expired
deriving DecidableEq, Repr

/-- Model of `jwt.decode(jwt=tok, key=publicKey, algorithms=algorithms)` at time
`now`: checks the signature first, then the `exp` claim (a token without an
`exp` claim is accepted, as PyJWT does by default). -/
def jwtDecode (crypto : JWTCrypto) (tok : SignedToken) (publicKey : String)
    (algorithms : List String) (now : Int) : Except JwtError Payload :=
  if crypto.pubOf tok.signKey = publicKey ∧ tok.alg ∈ algorithms then
    match dictLookup tok.payload "exp" with
    | some (.int e) => if e ≤ now then .error .expired else .ok tok.payload
    | _ => .ok tok.payload
  else .error .badSignature

/-- Model of `jwt.decode` applied to a token string `s`: a string that does not
deserialize to a signed token at all is a PyJWT `DecodeError` (`badSignature`). -/
def jwtDecodeStr (lib : String → Option SignedToken) (crypto : JWTCrypto)
    (s : String) (publicKey alg : String) (now : Int) : Except JwtError Payload :=
  match lib s with
  | none => .error .badSignature
  | some tok => jwtDecode crypto tok publicKey [alg] now

/-- `JWTHelper` (auth_service/jwt_utils.py): key material and validity window. -/
structure JWTHelper where
  private_key : String
  public_key : String
  expiration_time_in_hours : Int
  key_algorithm : String

/-- `JWTHelper.sign_token`: sets `payload["exp"] = now + expiration_time_in_hours`
(in seconds) and signs with the private key and configured algorithm. -/
def JWTHelper.sign_token (h : JWTHelper) (payload : Payload) (now : Int) : SignedToken :=
  ⟨dictInsert payload "exp" (.int (now + h.expiration_time_in_hours * 3600)),
   h.private_key, h.key_algorithm⟩

/-- `JWTHelper.validate_token`: decode with the helper's public key and algorithm;
both `DecodeError` and `ExpiredSignatureError` become `JWTTokenInvalidException`
(kept distinguishable here as the underlying `JwtError`). -/
def JWTHelper.validate_token (crypto : JWTCrypto) (h : JWTHelper) (tok : SignedToken)
    (now : Int) : Except JwtError Payload :=
  jwtDecode crypto tok h.public_key [h.key_algorithm] now

/-- `JWTHelper.validate_token` applied to a token string. -/
def JWTHelper.validate_token_str (crypto : JWTCrypto) (h : JWTHelper)
    (lib : String → Option SignedToken) (s : String) (now : Int) : Except JwtError Payload :=
  jwtDecodeStr lib crypto s h.public_key h.key_algorithm now

/-- `constants.JWTTypes.MICROSERVICE_KEY_VALUE`. -/
def MICROSERVICE_KEY_VALUE : String := "microservice"

/-- `constants.JWTTypes.REGISTERED_USER_KEY_VALUE`. -/
def REGISTERED_USER_KEY_VALUE : String := "registered_user"

/-- `JWTTokenMicroService`: the typed claims object for a microservice token. -/
structure JWTTokenMicroService where
  token_type : JValue
  service_name : JValue
deriving DecidableEq, Repr

/-- `JWTTokenRegisteredUser`: the typed claims object for a registered-user token. -/
structure JWTTokenRegisteredUser where
  token_type : JValue
  user_id : JValue
  email : JValue
  is_active : JValue
deriving DecidableEq, Repr

/-- The payload object returned by `read_jwt_token`, one of the two typed claim kinds. -/
inductive TokenDetails
  | micro (m : JWTTokenMicroService)
  | user (u : JWTTokenRegisteredUser)
deriving DecidableEq, Repr

/-- `_parse_microservice_token`: reads `token_type` and `service_name` from the
payload; a missing key is a `KeyError`, turned into `FailedParsingJWTToken` (`none`). -/
def parse_microservice_token (p : Payload) : Option JWTTokenMicroService :=
  match dictLookup p "token_type", dictLookup p "service_name" with
  | some tt, some sn => some ⟨tt, sn⟩
  | _, _ => none

/-- `_parse_registered_user_token`: reads `token_type`, `user_id`, `email`,
`is_active`; a missing key is `FailedParsingJWTToken` (`none`). -/
def parse_registered_user_token (p : Payload) : Option JWTTokenRegisteredUser :=
  match dictLookup p "token_type", dictLookup p "user_id",
        dictLookup p "email", dictLookup p "is_active" with
  | some tt, some uid, some em, some ia => some ⟨tt, uid, em, ia⟩
  | _, _, _, _ => none

/-- Outcome of `read_jwt_token` (identical logic in
users_manager/utils/jwt_validator.py and auth_service/utils/jwt_issuer.py). -/
inductive ReadTokenResult
  | ok (token_type : String) (details : TokenDetails)
  | invalidAuth
  | failedParsing
  | keyError
deriving DecidableEq, Repr

/-- The shared body of `read_jwt_token`: validate, then dispatch on
`token_payload["token_type"]`.  The `try` block catches only
`JWTTokenInvalidException` (re-raised as `JWTInvalidAuthException`,
`.invalidAuth`); `FailedParsingJWTToken` propagates (`.failedParsing`); the bare
subscript `token_payload["token_type"]` raises an uncaught `KeyError`
(`.keyError`) when the key is absent. -/
def readTokenCore (crypto : JWTCrypto) (publicKey alg : String) (tok : SignedToken)
    (now : Int) : ReadTokenResult :=
  match jwtDecode crypto tok publicKey [alg] now with
  | .error _ => .invalidAuth
  | .ok token_payload =>
    match dictLookup token_payload "token_type" with
    | none => .keyError
    | some tt =>
      if tt = .str MICROSERVICE_KEY_VALUE then
        match parse_microservice_token token_payload with
        | some m => .ok MICROSERVICE_KEY_VALUE (.micro m)
        | none => .failedParsing
      else if tt = .str REGISTERED_USER_KEY_VALUE then
        match parse_registered_user_token token_payload with
        | some u => .ok REGISTERED_USER_KEY_VALUE (.user u)
        | none => .failedParsing
      else .failedParsing

/-- `read_jwt_token` on a token string (a string that is not a signed token is a
`DecodeError` inside `_validate_token`, hence `JWTInvalidAuthException`). -/
def readTokenStr (lib : String → Option SignedToken) (crypto : JWTCrypto)
    (publicKey alg : String) (s : String) (now : Int) : ReadTokenResult :=
  match lib s with
  | none => .invalidAuth
  | some tok => readTokenCore crypto publicKey alg tok now

/-- `JWTIssuer.read_jwt_token` (auth_service/utils/jwt_issuer.py): the shared
body with the issuer helper's public key and algorithm. -/
def JWTIssuer.read_jwt_token (crypto : JWTCrypto) (h : JWTHelper)
    (lib : String → Option SignedToken) (s : String) (now : Int) : ReadTokenResult :=
  readTokenStr lib crypto h.public_key h.key_algorithm s now

/-- `JWTIssuer.is_token_valid`: `validate_token` inside a `try`; any
`JWTTokenInvalidException` yields `False`, success yields `True`. -/
def JWTIssuer.is_token_valid (crypto : JWTCrypto) (h : JWTHelper)
    (lib : String → Option SignedToken) (s : String) (now : Int) : Bool :=
  match JWTHelper.validate_token_str crypto h lib s now with
  | .ok _ => true
  | .error _ => false

/-- `MicroServicesNames.MICROSERVICES_TOKENS_DICT`: the shared-secret registry,
configuration supplied at startup; passed explicitly here. -/
abbrev TokensDict := List (String × String)

/-- `JWTIssuer._authenticate_service_token`: look the service name up in the
registry (`KeyError` is caught and yields `False`) and compare the registered
secret with the presented one. -/
def authenticate_service_token (tokensDict : TokensDict)
    (micro_service_initial_token micro_service_name : String) : Bool :=
  match tokensDict.lookup micro_service_name with
  | some secret => secret == micro_service_initial_token
  | none => false

/-- Outcome of `JWTIssuer.issue_micro_service_jwt`: the signed token, or the
single failure `MicroserviceAuthenticationTokenInvalidException`. -/
inductive IssueMicroResult
  | ok (token : SignedToken)
  | authFailed
deriving DecidableEq, Repr

/-- `JWTIssuer.issue_micro_service_jwt`: authenticate the shared secret, then
sign `{"service_name": name, "token_type": "microservice"}`. -/
def JWTIssuer.issue_micro_service_jwt (h : JWTHelper) (tokensDict : TokensDict)
    (micro_service_name micro_service_initial_token : String) (now : Int) : IssueMicroResult :=
  if authenticate_service_token tokensDict micro_service_initial_token micro_service_name then
    .ok (h.sign_token [("service_name", .str micro_service_name),
                       ("token_type", .str MICROSERVICE_KEY_VALUE)] now)
  else .authFailed

theorem dictLookup_dictInsert_self (p : Payload) (k : String) (v : JValue) :
    dictLookup (dictInsert p k v) k = some v := by
  induction p with
  | nil => simp [dictInsert, dictLookup]
  | cons hd tl ih =>
    obtain ⟨k₁, v₁⟩ := hd
    by_cases h : k₁ = k
    · simpa [dictInsert, h] using ih
    · simpa [dictInsert, dictLookup, h] using ih

theorem dictLookup_dictInsert_ne (p : Payload) (k k₂ : String) (v : JValue)
    (h : k₂ ≠ k) : dictLookup (dictInsert p k v) k₂ = dictLookup p k₂ := by
  induction p with
  | nil => simp [dictInsert, dictLookup, Ne.symm h]
  | cons hd tl ih =>
    obtain ⟨k₁, v₁⟩ := hd
    by_cases hh : k₁ = k
    · subst hh
      simpa [dictInsert, dictLookup, Ne.symm h] using ih
    · by_cases hk₂ : k₁ = k₂
      · subst hk₂
        simp [dictInsert, dictLookup, hh]
      · simpa [dictInsert, dictLookup, hh, hk₂] using ih

/-- `AuthServiceJWTValidator` (users_manager/utils/jwt_validator.py): the
bootstrap client's state.  `__init__` stores the configuration and leaves the
four cached fields `None`. -/
structure AuthServiceJWTValidator where
  auth_service_address : String
  auth_service_get_public_key_api_route : String
  auth_service_issue_microservice_jwt_token_api_route : String
  micro_service_initial_token : String
  micro_service_name : String
  public_key : Option String
  key_algorithm : Option String
  microservice_jwt_token : Option String
  microservice_jwt_token_expire_datetime : Option Int
deriving DecidableEq, Repr

/-- `AuthServiceJWTValidator.__init__`: configuration stored, caches `None`. -/
def AuthServiceJWTValidator.mkInit (addr pk_route issue_route tok name : String) :
    AuthServiceJWTValidator :=
  ⟨addr, pk_route, issue_route, tok, name, none, none, none, none⟩

/-- Outcome of `AuthServiceJWTValidator.get_microservice_jwt`.
`ok token refreshCalls`: the returned value of `self._microservice_jwt_token`
together with how many refresh exchanges (`_get_microservice_jwt_token_from_auth_service`)
were performed; `refreshFailed`: the refresh raised
`FailedGettingAuthServiceResponseException`; `crash`: the Python `<` comparison
between `None` and a `datetime` raised an untyped `TypeError`. -/
inductive GetJwtResult
  | ok (token : Option String) (refreshCalls : Nat)
  | refreshFailed
  | crash
deriving DecidableEq, Repr

/-- `AuthServiceJWTValidator.get_microservice_jwt`: computes
`jwt_real_expire_time = utcnow() - timedelta(minutes=1)` and refreshes the
cached token exactly when
`self._microservice_jwt_token_expire_datetime < jwt_real_expire_time`.
`refreshOutcome` is the outcome of the network exchange: the fresh token and its
expiry, or `none` if the exchange raises. -/
def AuthServiceJWTValidator.get_microservice_jwt (st : AuthServiceJWTValidator)
    (now : Int) (refreshOutcome : Option (String × Int)) : GetJwtResult :=
  match st.microservice_jwt_token_expire_datetime with
  | none => .crash
  | some expire =>
    let jwt_real_expire_time : Int := now - 60
    if expire < jwt_real_expire_time then
      match refreshOutcome with
      | some (fresh, _freshExpire) => .ok (some fresh) 1
      | none => .refreshFailed
    else .ok st.microservice_jwt_token 0

/-- Outcome of `AuthServiceJWTValidator.initial_jwt_validator` under bounded
observation: `success`; `raisedInitFailed`
(`FailedInitializingAuthServiceJWTValidatorClassException`); `runsForever`
(the observation fuel was exhausted without the loop terminating). -/
inductive InitResult
  | success
  | raisedInitFailed
  | runsForever
deriving DecidableEq, Repr

/-- The `while attempts < max_attempts` loop of
`AuthServiceJWTValidator.initial_jwt_validator`, transcribed statement by
statement.  One iteration runs `_set_public_key_from_auth_service` followed by
`_get_microservice_jwt_token_from_auth_service`; `attemptSucceeds iter` tells
whether iteration `iter` of this sequence succeeds, a failure is the caught
`FailedGettingAuthServiceResponseException` followed by `sleep(10)`.  Note that
the source never increments `attempts` in the failure branch; the transcription
keeps that faithfully.  `fuel` bounds how many iterations we observe. -/
def initial_jwt_validator_loop (attemptSucceeds : Nat → Bool)
    (attempts max_attempts : Nat) (iter : Nat) (fuel : Nat) : InitResult :=
  match fuel with
  | 0 => .runsForever
  | fuel₁ + 1 =>
    if attempts < max_attempts then
      if attemptSucceeds iter then .success
      else initial_jwt_validator_loop attemptSucceeds attempts max_attempts (iter + 1) fuel₁
    else .raisedInitFailed

/-- `AuthServiceJWTValidator.initial_jwt_validator`: `attempts = 0`,
`max_attempts = 3`, then the while loop. -/
def initial_jwt_validator (attemptSucceeds : Nat → Bool) (fuel : Nat) : InitResult :=
  initial_jwt_validator_loop attemptSucceeds 0 3 0 fuel

/-- Python `str.split(" ")` on the character list: split at every single space,
keeping empty segments (`"".split(" ") == [""]`, `"a  b".split(" ") == ["a", "", "b"]`). -/
def splitOnSpace (cs : List Char) : List (List Char) :=
  match cs with
  | [] => [[]]
  | c :: rest =>
    let r := splitOnSpace rest
    if c = ' ' then [] :: r
    else
      match r with
      | [] => [[c]]
      | w :: ws => (c :: w) :: ws

/-- Python `s.split(" ")` on a string. -/
def pySplitSpace (s : String) : List String :=
  (splitOnSpace s.data).map (fun w => String.mk w)

/-- `AuthHTTPRequest.parse_auth_bearer_header` (identical in
auth_service/fast_api_extensions/auth_http_request.py and
chat_be/utils/auth_http_request.py): split on single spaces, take parts 0 and 1
(an `IndexError` is `AuthorizationHeaderInvalidHeaderFormat`, `none`), then
require exactly two parts, the scheme word `"Bearer"`, and a nonempty token. -/
def parse_auth_bearer_header (authorization_bearer_header : String) : Option String :=
  match pySplitSpace authorization_bearer_header with
  | auth_type :: token :: rest =>
    if (auth_type :: token :: rest).length ≠ 2 then none
    else if auth_type ≠ "Bearer" then none
    else if token.length < 1 then none
    else some token
  | _ => none

/-- Outcome of `AuthHTTPRequest.verify_micro_service_jwt_token`.
`retNone`: the Python function falls off the end of the `elif` chain and
implicitly returns `None`; `crash`: an exception no handler catches propagates
(`KeyError` from `read_jwt_token`, or an attribute access on the wrong claims
object). -/
inductive VerifyMicroResult
  | ok (m : JWTTokenMicroService)
  | retNone
  | invalidHeaderFormat
  | invalidToken
  | notPermitted
  | crash
deriving DecidableEq, Repr

/-- `AuthHTTPRequest.verify_micro_service_jwt_token` (identical logic in
auth_service/fast_api_extensions/auth_http_request.py and
chat_be/utils/auth_http_request.py): parse the header, read the token
(catching `FailedParsingJWTToken` and `JWTInvalidAuthException` as
`AuthorizationHeaderInvalidToken`), then the permission checks; note the
`elif micro_service_name is not None` branch has no `return` statement. -/
def verify_micro_service_jwt_token (lib : String → Option SignedToken)
    (crypto : JWTCrypto) (publicKey alg : String)
    (authorization_bearer_header : String) (micro_service_name : Option String)
    (now : Int) : VerifyMicroResult :=
  match parse_auth_bearer_header authorization_bearer_header with
  | none => .invalidHeaderFormat
  | some jwt_token =>
    match readTokenStr lib crypto publicKey alg jwt_token now with
    | .invalidAuth => .invalidToken
    | .failedParsing => .invalidToken
    | .keyError => .crash
    | .ok token_type details =>
      if token_type ≠ MICROSERVICE_KEY_VALUE then .notPermitted
      else
        match micro_service_name, details with
        | some name, .micro m =>
          if ¬ (m.service_name = .str name) then .notPermitted else .retNone
        | some _, .user _ => .crash
        | none, .micro m => .ok m
        | none, .user _ => .crash

/-- `AuthServiceJWTValidator.read_jwt_token` (users_manager/utils/jwt_validator.py):
the shared `read_jwt_token` body run with the validator's cached public key and
algorithm; `none` when the caches are still unset (jwt.decode with a `None` key,
outside the model — `initial_jwt_validator` must run first). -/
def AuthServiceJWTValidator.read_jwt_token (crypto : JWTCrypto)
    (st : AuthServiceJWTValidator) (lib : String → Option SignedToken)
    (s : String) (now : Int) : Option ReadTokenResult :=
  match st.public_key, st.key_algorithm with
  | some pk, some alg => some (readTokenStr lib crypto pk alg s now)
  | _, _ => none

/-- A concrete key pairing for the concrete instances below: the public key of a
private key `k` is `k ++ "-pub"`. -/
def cryptoT : JWTCrypto := ⟨fun k => k ++ "-pub"⟩

/-- A concrete `JWTHelper` configuration: matching key pair, one-hour validity,
algorithm `"RS256"`. -/
def helperT : JWTHelper := ⟨"priv", "priv-pub", 1, "RS256"⟩

/-- A concrete shared-secret registry with the two services of the project. -/
def registryT : TokensDict := [("chat_be", "chat-secret"), ("user_manager", "um-secret")]

/-- A validly signed token for service `"chat_be"`, expiring at time 9000. -/
def microTokenT : SignedToken :=
  ⟨[("token_type", .str "microservice"), ("service_name", .str "chat_be"),
    ("exp", .int 9000)], "priv", "RS256"⟩

/-- A validly signed registered-user token, expiring at time 9000. -/
def userTokenT : SignedToken :=
  ⟨[("token_type", .str "registered_user"), ("user_id", .int 7),
    ("email", .str "u@example.com"), ("is_active", .bool true),
    ("exp", .int 9000)], "priv", "RS256"⟩

/-- A validly signed token whose payload carries no `token_type` claim at all. -/
def noTypeTokenT : SignedToken := ⟨[("exp", .int 9000)], "priv", "RS256"⟩

/-- A validly signed token whose `token_type` claim is an unrecognized value. -/
def alienTypeTokenT : SignedToken :=
  ⟨[("token_type", .str "alien"), ("exp", .int 9000)], "priv", "RS256"⟩

/-- The concrete token-string deserialization tying the fixture strings to the
fixture tokens. -/
def libT : String → Option SignedToken := fun s =>
  if s = "micro-token" then some microTokenT
  else if s = "user-token" then some userTokenT
  else if s = "no-type-token" then some noTypeTokenT
  else if s = "alien-type-token" then some alienTypeTokenT
  else none

/-- C6: for every claims payload `P`, decoding the token produced by `sign_token`
succeeds and reproduces every field of `P` unchanged, with the `exp` claim set to
the signing time plus the configured validity window
(`expiration_time_in_hours`, in seconds); `sign_token` inserts or overwrites only
`exp`.  Hypotheses: the helper's keys form a pair, and validation happens before
the window elapses. -/
theorem sign_token_validate_token_round_trip (crypto : JWTCrypto) (h : JWTHelper)
    (p : Payload) (now now₁ : Int)
    (hpair : crypto.pubOf h.private_key = h.public_key)
    (hfresh : now₁ < now + h.expiration_time_in_hours * 3600) :
    JWTHelper.validate_token crypto h (h.sign_token p now) now₁
        = .ok ((h.sign_token p now).payload)
    ∧ dictLookup (h.sign_token p now).payload "exp"
        = some (.int (now + h.expiration_time_in_hours * 3600))
    ∧ ∀ k, k ≠ "exp" → dictLookup (h.sign_token p now).payload k = dictLookup p k := by
  have hexp : dictLookup (h.sign_token p now).payload "exp"
      = some (.int (now + h.expiration_time_in_hours * 3600)) := by
    simpa [JWTHelper.sign_token] using
      dictLookup_dictInsert_self p "exp" (.int (now + h.expiration_time_in_hours * 3600))
  have hnle : ¬ (now + h.expiration_time_in_hours * 3600 ≤ now₁) := not_le.mpr hfresh
  refine ⟨?_, hexp, ?_⟩
  · simp only [JWTHelper.validate_token, jwtDecode]
    rw [show (h.sign_token p now).signKey = h.private_key from rfl,
        show (h.sign_token p now).alg = h.key_algorithm from rfl]
    simp [hpair, hexp, hnle]
  · intro k hk
    simpa [JWTHelper.sign_token] using
      dictLookup_dictInsert_ne p "exp" k (.int (now + h.expiration_time_in_hours * 3600)) hk

/-- Witness for the round-trip theorem at a concrete helper, payload and times. -/
theorem sign_token_validate_token_round_trip_witness :
    JWTHelper.validate_token cryptoT helperT
        (JWTHelper.sign_token helperT [("a", .str "b")] 0) 5
      = .ok ((JWTHelper.sign_token helperT [("a", .str "b")] 0).payload) :=
  (sign_token_validate_token_round_trip cryptoT helperT [("a", .str "b")] 0 5
    rfl (by decide)).1

/-- C9: `is_token_valid` is a total Boolean function (it can never raise: the
model's result type is `Bool`), and it returns `true` exactly when
`validate_token` succeeds, i.e. when validation fails with neither
`badSignature` nor `expired`. -/
theorem is_token_valid_total_boolean (crypto : JWTCrypto) (h : JWTHelper)
    (lib : String → Option SignedToken) (s : String) (now : Int) :
    JWTIssuer.is_token_valid crypto h lib s now = true ↔
      (JWTHelper.validate_token_str crypto h lib s now ≠ .error .badSignature
       ∧ JWTHelper.validate_token_str crypto h lib s now ≠ .error .expired) := by
  unfold JWTIssuer.is_token_valid
  cases hv : JWTHelper.validate_token_str crypto h lib s now with
  | ok p => simp
  | error e => cases e <;> simp

/-- C10: on a freshly constructed `AuthServiceJWTValidator` (before
`initial_jwt_validator` has run), the cached expiry field is still `None`, and
`get_microservice_jwt` neither returns a token nor a typed error: the `<`
comparison of `None` with a `datetime` crashes with an untyped `TypeError`. -/
theorem get_microservice_jwt_before_init_crashes
    (addr pk_route issue_route tok name : String) (now : Int)
    (refreshOutcome : Option (String × Int)) :
    (AuthServiceJWTValidator.mkInit addr pk_route issue_route tok
        name).microservice_jwt_token_expire_datetime = none
    ∧ (AuthServiceJWTValidator.mkInit addr pk_route issue_route tok
        name).get_microservice_jwt now refreshOutcome = .crash :=
  ⟨rfl, rfl⟩

/-- C1 (code bug): `get_microservice_jwt` refreshes only when the recorded
expiry lies more than one minute in the PAST (`expire < now - 60`), not when it
is within one minute of the future as the safety margin requires.  At `now =
1000`: an expiry 30 seconds ahead (1030) yields zero refresh calls and the stale
cached token (the claim requires exactly one refresh); an expiry 5 minutes ahead
(1300) yields zero (as claimed); an expiry already 60 seconds past (940) still
yields zero; only an expiry over a minute past (939) triggers the single
refresh. -/
theorem get_microservice_jwt_refresh_margin_bug :
    ({ AuthServiceJWTValidator.mkInit "a" "pk" "issue" "t" "svc" with
        microservice_jwt_token := some "cached",
        microservice_jwt_token_expire_datetime := some 1030
      }).get_microservice_jwt 1000 (some ("fresh", 90000)) = .ok (some "cached") 0
    ∧ ({ AuthServiceJWTValidator.mkInit "a" "pk" "issue" "t" "svc" with
        microservice_jwt_token := some "cached",
        microservice_jwt_token_expire_datetime := some 1300
      }).get_microservice_jwt 1000 (some ("fresh", 90000)) = .ok (some "cached") 0
    ∧ ({ AuthServiceJWTValidator.mkInit "a" "pk" "issue" "t" "svc" with
        microservice_jwt_token := some "cached",
        microservice_jwt_token_expire_datetime := some 940
      }).get_microservice_jwt 1000 (some ("fresh", 90000)) = .ok (some "cached") 0
    ∧ ({ AuthServiceJWTValidator.mkInit "a" "pk" "issue" "t" "svc" with
        microservice_jwt_token := some "cached",
        microservice_jwt_token_expire_datetime := some 939
      }).get_microservice_jwt 1000 (some ("fresh", 90000)) = .ok (some "fresh") 1 := by
  refine ⟨?_, ?_, ?_, ?_⟩ <;> decide

theorem initial_loop_all_fail (fuel : Nat) : ∀ iter : Nat,
    initial_jwt_validator_loop (fun _ => false) 0 3 iter fuel = .runsForever := by
  induction fuel with
  | zero => intro iter; rfl
  | succ n ih =>
    intro iter
    have h03 : (0 : Nat) < 3 := by decide
    simpa [initial_jwt_validator_loop, h03] using ih (iter + 1)

/-- C2 (code bug): when every bootstrap attempt fails, `initial_jwt_validator`
never terminates: the `attempts` counter is never incremented in the failure
branch, so `attempts < max_attempts` stays true forever, and in particular
`FailedInitializingAuthServiceJWTValidatorClassException` is never raised —
contrary to the claimed at-most-3-attempts termination. -/
theorem initial_jwt_validator_never_raises_when_all_attempts_fail (fuel : Nat) :
    initial_jwt_validator (fun _ => false) fuel = .runsForever
    ∧ initial_jwt_validator (fun _ => false) fuel ≠ .raisedInitFailed := by
  have h := initial_loop_all_fail fuel 0
  refine ⟨h, ?_⟩
  unfold initial_jwt_validator
  rw [h]
  simp

/-- C3 (code bug): `verify_micro_service_jwt_token` with an
`expected_service_name` equal to the token's `service_name` falls off the end of
the `elif` chain and returns `None` instead of the typed claims object.  The
other branches behave as claimed: a mismatching expected name and a
non-microservice kind fail with `AuthorizationHeaderJWTTokenNotPermitted`, and
with no expected name the claims object is returned. -/
theorem verify_micro_service_jwt_token_matching_name_returns_none_bug :
    verify_micro_service_jwt_token libT cryptoT "priv-pub" "RS256"
        "Bearer micro-token" (some "chat_be") 0 = .retNone
    ∧ verify_micro_service_jwt_token libT cryptoT "priv-pub" "RS256"
        "Bearer micro-token" (some "user_manager") 0 = .notPermitted
    ∧ verify_micro_service_jwt_token libT cryptoT "priv-pub" "RS256"
        "Bearer user-token" (some "chat_be") 0 = .notPermitted
    ∧ verify_micro_service_jwt_token libT cryptoT "priv-pub" "RS256"
        "Bearer micro-token" none 0 = .ok ⟨.str "microservice", .str "chat_be"⟩ := by
  refine ⟨?_, ?_, ?_, ?_⟩ <;> decide

/-- C4 (code bug): on a validly signed, unexpired token, `read_jwt_token`
reacts to an unrecognized `token_type` value with `FailedParsingJWTToken` as
claimed, but a payload lacking the `token_type` field entirely raises an
uncaught `KeyError` (the bare subscript is outside every `except` clause), not
`FailedParsingJWTToken`. -/
theorem read_jwt_token_missing_token_type_key_error_bug :
    JWTIssuer.read_jwt_token cryptoT helperT libT "no-type-token" 0 = .keyError
    ∧ JWTIssuer.read_jwt_token cryptoT helperT libT "alien-type-token" 0
        = .failedParsing := by
  refine ⟨?_, ?_⟩ <;> decide

/-- C8: whenever `validate_token` fails — with `badSignature` or with `expired`
alike — `read_jwt_token` fails with the single kind `JWTInvalidAuthException`
(`.invalidAuth`), in the issuer's copy and in the validator's copy (run on any
state whose cached key material matches the helper's). -/
theorem readTokenCore_invalidAuth (crypto : JWTCrypto) (pk alg : String)
    (tok : SignedToken) (now : Int) (e : JwtError)
    (hd : jwtDecode crypto tok pk [alg] now = .error e) :
    readTokenCore crypto pk alg tok now = .invalidAuth := by
  unfold readTokenCore
  rw [hd]

theorem read_jwt_token_collapses_crypto_failures (lib : String → Option SignedToken)
    (crypto : JWTCrypto) (h : JWTHelper) (s : String) (now : Int) (e : JwtError)
    (hd : JWTHelper.validate_token_str crypto h lib s now = .error e) :
    JWTIssuer.read_jwt_token crypto h lib s now = .invalidAuth
    ∧ ∀ st : AuthServiceJWTValidator,
        AuthServiceJWTValidator.read_jwt_token crypto
          { st with public_key := some h.public_key,
                    key_algorithm := some h.key_algorithm }
          lib s now = some .invalidAuth := by
  have core : readTokenStr lib crypto h.public_key h.key_algorithm s now = .invalidAuth := by
    unfold JWTHelper.validate_token_str jwtDecodeStr at hd
    unfold readTokenStr
    cases hl : lib s with
    | none => rfl
    | some tok =>
      rw [hl] at hd
      exact readTokenCore_invalidAuth crypto h.public_key h.key_algorithm tok now e hd
  refine ⟨core, fun st => ?_⟩
  simp [AuthServiceJWTValidator.read_jwt_token, core]

/-- Witness for the collapse theorem: the fixture microservice token read long
after its expiry time must fail as `.invalidAuth`. -/
theorem read_jwt_token_collapses_crypto_failures_witness :
    JWTIssuer.read_jwt_token cryptoT helperT libT "micro-token" 99999 = .invalidAuth :=
  (read_jwt_token_collapses_crypto_failures libT cryptoT helperT "micro-token" 99999
    .expired rfl).1

/-- C7: `"Bearer abc"` parses to `"abc"`; `"Bearer"`, `"Bearer  "` (empty token
segment), `"Token abc"` and `"Bearer a b"` all fail with
`AuthorizationHeaderInvalidHeaderFormat` (`none`); and in general parsing
succeeds with token `t` exactly when the header splits on single spaces into
exactly `["Bearer", t]` with `t` nonempty. -/
theorem parse_auth_bearer_header_contract :
    parse_auth_bearer_header "Bearer abc" = some "abc"
    ∧ parse_auth_bearer_header "Bearer" = none
    ∧ parse_auth_bearer_header "Bearer  " = none
    ∧ parse_auth_bearer_header "Token abc" = none
    ∧ parse_auth_bearer_header "Bearer a b" = none
    ∧ ∀ (s t : String), parse_auth_bearer_header s = some t ↔
        (pySplitSpace s = ["Bearer", t] ∧ t ≠ "") := by
  refine ⟨by decide, by decide, by decide, by decide, by decide, ?_⟩
  intro s t
  constructor
  · intro hp
    unfold parse_auth_bearer_header at hp
    cases hsp : pySplitSpace s with
    | nil => rw [hsp] at hp; exact Option.noConfusion hp
    | cons a l =>
      cases l with
      | nil => rw [hsp] at hp; exact Option.noConfusion hp
      | cons b l₂ =>
        rw [hsp] at hp
        have hp' : (if (a :: b :: l₂).length ≠ 2 then none
                    else if a ≠ "Bearer" then none
                    else if b.length < 1 then none
                    else some b) = some t := hp
        by_cases h1 : (a :: b :: l₂).length ≠ 2
        · rw [if_pos h1] at hp'
          exact Option.noConfusion hp'
        · rw [if_neg h1] at hp'
          by_cases h2 : a ≠ "Bearer"
          · rw [if_pos h2] at hp'
            exact Option.noConfusion hp'
          · rw [if_neg h2] at hp'
            by_cases h3 : b.length < 1
            · rw [if_pos h3] at hp'
              exact Option.noConfusion hp'
            · rw [if_neg h3] at hp'
              have hb : b = t := Option.some.inj hp'
              subst hb
              have h1' : (a :: b :: l₂).length = 2 := not_not.mp h1
              have hl₂ : l₂ = [] := by simpa using h1'
              refine ⟨?_, ?_⟩
              · rw [hl₂, not_not.mp h2]
              · intro hc
                rw [hc] at h3
                exact h3 (by decide)
  · rintro ⟨hsp, hne⟩
    have hlen : ¬ (t.length < 1) := fun hlt =>
      hne (String.ext (List.length_eq_zero.mp (Nat.lt_one_iff.mp hlt)))
    unfold parse_auth_bearer_header
    rw [hsp]
    simp [hlen]

/-- C5 counterexample: an unregistered service name and a registered name with a
wrong secret produce literally the same failure —
`MicroserviceAuthenticationTokenInvalidException` — so the two claimed failure
kinds (`UnknownService` vs `AuthenticationFailed`) are not distinguishable in
the code. -/
theorem issue_micro_service_jwt_failures_indistinguishable :
    JWTIssuer.issue_micro_service_jwt helperT registryT "ghost_service" "anything" 0
      = JWTIssuer.issue_micro_service_jwt helperT registryT "chat_be" "wrong-secret" 0
    ∧ JWTIssuer.issue_micro_service_jwt helperT registryT "ghost_service" "anything" 0
      = .authFailed := by
  refine ⟨?_, ?_⟩ <;> decide

/-- C5 (amended): `issue_micro_service_jwt` fails with the single kind
`MicroserviceAuthenticationTokenInvalidException` both when the presented
service name is not in the shared-secret registry and when the name is
registered but the presented secret differs from the registered one; in either
failure case no token is signed or returned.  When name and secret match, it
succeeds and the resulting token reads back (`read_jwt_token` body on the signed
token, before the validity window elapses) as kind `microservice` with that
`service_name`. -/
theorem issue_micro_service_jwt_single_failure_kind_and_round_trip
    (crypto : JWTCrypto) (h : JWTHelper) (d : TokensDict)
    (name secret : String) (now now₁ : Int)
    (hpair : crypto.pubOf h.private_key = h.public_key)
    (hfresh : now₁ < now + h.expiration_time_in_hours * 3600) :
    (d.lookup name = none →
      JWTIssuer.issue_micro_service_jwt h d name secret now = .authFailed)
    ∧ (∀ s, d.lookup name = some s → s ≠ secret →
        JWTIssuer.issue_micro_service_jwt h d name secret now = .authFailed)
    ∧ (∀ s, d.lookup name = some s → s = secret →
        JWTIssuer.issue_micro_service_jwt h d name secret now
          = .ok (h.sign_token [("service_name", .str name),
                               ("token_type", .str MICROSERVICE_KEY_VALUE)] now)
        ∧ readTokenCore crypto h.public_key h.key_algorithm
            (h.sign_token [("service_name", .str name),
                           ("token_type", .str MICROSERVICE_KEY_VALUE)] now) now₁
          = .ok MICROSERVICE_KEY_VALUE
              (.micro ⟨.str MICROSERVICE_KEY_VALUE, .str name⟩)) := by
  refine ⟨?_, ?_, ?_⟩
  · intro hlu
    simp [JWTIssuer.issue_micro_service_jwt, authenticate_service_token, hlu]
  · intro s hlu hne
    simp [JWTIssuer.issue_micro_service_jwt, authenticate_service_token, hlu, hne]
  · intro s hlu hse
    subst hse
    refine ⟨by simp [JWTIssuer.issue_micro_service_jwt, authenticate_service_token, hlu], ?_⟩
    have hnle : ¬ (now + h.expiration_time_in_hours * 3600 ≤ now₁) := not_le.mpr hfresh
    simp [readTokenCore, JWTHelper.sign_token, jwtDecode, hpair, hnle, dictInsert,
          dictLookup, parse_microservice_token, MICROSERVICE_KEY_VALUE,
          REGISTERED_USER_KEY_VALUE]

/-- Witness for the amended issuance theorem: with the fixture registry,
`"chat_be"` with its correct secret yields the signed microservice token. -/
theorem issue_micro_service_jwt_round_trip_witness :
    JWTIssuer.issue_micro_service_jwt helperT registryT "chat_be" "chat-secret" 0
      = .ok (JWTHelper.sign_token helperT
          [("service_name", .str "chat_be"),
           ("token_type", .str MICROSERVICE_KEY_VALUE)] 0) :=
  ((issue_micro_service_jwt_single_failure_kind_and_round_trip cryptoT helperT registryT
      "chat_be" "chat-secret" 0 5 rfl (by decide)).2.2 "chat-secret" rfl rfl).1
